import Mathlib

/-!
Shallow embedding of the Sanyai backend (`server/index.js`): token counting,
the smart-prompt endpoint's JSON-repair chain, the depth instruction tables,
the web-search extraction pipeline, and the `/chat`, `/chat/:id`, `/chats`
request handlers.  External effects (the Hugging Face model calls, the SerpApi
fetch, the Supabase client) are modelled as oracle parameters; JavaScript
string-valued expressions are modelled as `Option String` where `none` stands
for `undefined`/`null` and the empty string is falsy.
-/

namespace Sanyai

/-- JavaScript truthiness filter for a string-valued expression: `none` models
`undefined`/`null`; the empty string is falsy as well. -/
def jsTruthy : Option String → Option String
  | some s => if s = "" then none else some s
  | none => none

/-- JavaScript `a || b` on string-valued expressions. -/
def jsOr (a b : Option String) : Option String :=
  match jsTruthy a with
  | some s => some s
  | none => b

/-- Boolean truthiness of a string-valued field (filter predicates like
`s => s.link`). -/
def truthyStr (o : Option String) : Bool :=
  (jsTruthy o).isSome

/-- `.filter(Boolean)` over a list of string-valued entries: keeps exactly the
present, non-empty strings. -/
def jsFilterBoolean (l : List (Option String)) : List String :=
  l.filterMap jsTruthy

/-- Template-literal interpolation of a string-valued expression:
`undefined` is rendered literally. -/
def jsStr (o : Option String) : String :=
  match o with
  | some s => s
  | none => "undefined"

/-- `countTokens` from `server/index.js`: the length of the third-party
tokenizer's encoding of the text; when the tokenizer throws (modelled as
`none`) the fallback `Math.ceil(text.length / 4)`, i.e. `(length + 3) / 4`. -/
def countTokens (encode : String → Option (List Nat)) (text : String) : Nat :=
  match encode text with
  | some tokens => tokens.length
  | none => (text.length + 3) / 4

/-! ### Smart-prompt endpoint -/

/-- The JSON object shape the smart-prompt optimizer is asked to produce.
Fields are optional because a successfully parsed object need not contain
them. -/
structure SPResult where
  issues : Option (List String)
  optimized_prompt : Option String
deriving DecidableEq

/-- Parse attempt 2's cleanup: `rawContent.replace(/```json/g, '')
.replace(/```/g, '').trim()`. -/
def stripFences (s : String) : String :=
  ((s.replace "```json" "").replace "```" "").trim

/-- The regex extraction `rawContent.match(/\x7b[\s\S]*\x7d/)`: greedy, so it
matches from the first opening brace through the last closing brace, provided
such a pair exists. -/
def matchJsonObject (s : String) : Option String :=
  let tail := s.data.dropWhile (fun c => c ≠ '{')
  match tail with
  | [] => none
  | _ :: _ =>
    let upto := (tail.reverse.dropWhile (fun c => c ≠ '}')).reverse
    match upto with
    | [] => none
    | _ :: _ => some (String.mk upto)

/-- The fallback result produced when all three parse attempts fail. -/
def parseFallback (prompt : String) : SPResult :=
  { issues := some ["Could not analyze prompt structure (JSON Parse Error)"],
    optimized_prompt := some prompt }

/-- The robust JSON-parsing chain of `/smart-prompt`: direct `JSON.parse`,
then parse after stripping markdown fences, then parse the first regex-matched
JSON object, and finally the fallback result carrying the original prompt.
`parse` is the `JSON.parse` oracle (`none` = throws). -/
def robustParse (parse : String → Option SPResult) (rawContent prompt : String) : SPResult :=
  match parse rawContent with
  | some r => r
  | none =>
    match parse (stripFences rawContent) with
    | some r => r
    | none =>
      match matchJsonObject rawContent with
      | some str =>
        match parse str with
        | some r => r
        | none => parseFallback prompt
      | none => parseFallback prompt

/-- The `max_tokens` literal of the smart-prompt optimization call. -/
def smartPromptMaxTokens : Nat := 500

/-- The JSON body returned by `POST /smart-prompt` on success. -/
structure SmartPromptResponse where
  issues : List String
  optimizedPrompt : String
  originalTokens : Nat
  optimizedTokens : Nat
deriving DecidableEq

/-- The `POST /smart-prompt` handler.  `modelOutput` is the optimization
model's `choices[0]?.message?.content` (`none` when absent); a missing prompt
is a 400; the result fields follow the source's `result.issues || []` and
`result.optimized_prompt || prompt`. -/
def smartPromptHandler (parse : String → Option SPResult)
    (encode : String → Option (List Nat))
    (modelOutput : Option String) (prompt : String) : Except Nat SmartPromptResponse :=
  if prompt = "" then Except.error 400
  else
    let rawContent := (jsOr modelOutput (some "\x7b\x7d")).getD "\x7b\x7d"
    let result := robustParse parse rawContent prompt
    let optimizedPrompt := (jsOr result.optimized_prompt (some prompt)).getD prompt
    Except.ok
      { issues := result.issues.getD []
        optimizedPrompt := optimizedPrompt
        originalTokens := countTokens encode prompt
        optimizedTokens := countTokens encode optimizedPrompt }

/-! ### Depth instruction tables

The same four-entry object literal appears twice in the source, once inside
`handleWebSearchFlow` and once inside `generateResponse`; each lookup falls
back to the `'Short'` entry via `depthInstructions[depth] ||
depthInstructions['Short']`. -/

/-- The `'Concise'` instruction string. -/
def conciseInstr : String :=
  "IMPORTANT CONSTRAINT: Keep your response extremely concise, approximately 100-150 words."

/-- The `'Short'` instruction string. -/
def shortInstr : String :=
  "IMPORTANT CONSTRAINT: Keep your response short and to the point, approximately 200-300 words."

/-- The `'Medium'` instruction string. -/
def mediumInstr : String :=
  "IMPORTANT CONSTRAINT: Provide a standard medium-length response, approximately 400-600 words."

/-- The `'Large'` instruction string. -/
def largeInstr : String :=
  "IMPORTANT CONSTRAINT: Provide a very detailed, comprehensive, and in-depth response, approximately 800-1000 words."

/-- The `depthInstructions` object literal inside `handleWebSearchFlow`. -/
def depthInstructionsWeb (depth : String) : Option String :=
  if depth = "Concise" then some conciseInstr
  else if depth = "Short" then some shortInstr
  else if depth = "Medium" then some mediumInstr
  else if depth = "Large" then some largeInstr
  else none

/-- `depthInstructions[depth] || depthInstructions['Short']` inside
`handleWebSearchFlow`. -/
def webDepthInstruction (depth : String) : String :=
  (jsOr (depthInstructionsWeb depth) (depthInstructionsWeb "Short")).getD ""

/-- The `depthInstructions` object literal inside `generateResponse`. -/
def depthInstructionsGen (depth : String) : Option String :=
  if depth = "Concise" then some conciseInstr
  else if depth = "Short" then some shortInstr
  else if depth = "Medium" then some mediumInstr
  else if depth = "Large" then some largeInstr
  else none

/-- `depthInstructions[depth] || depthInstructions['Short']` inside
`generateResponse`. -/
def genDepthInstruction (depth : String) : String :=
  (jsOr (depthInstructionsGen depth) (depthInstructionsGen "Short")).getD ""

/-- The `max_tokens` literal passed to the model call in `generateResponse`,
as a function of the request's depth (the literal is `2048` and does not
depend on the depth). -/
def generateMaxTokens (_depth : String) : Nat := 2048

/-- The `max_tokens` literal passed to the synthesis model call in
`handleWebSearchFlow`, as a function of the request's depth (the literal is
`2048` and does not depend on the depth). -/
def webSearchMaxTokens (_depth : String) : Nat := 2048

/-- The fixed part of the system prompt built in `generateResponse`, up to the
point where the depth instruction is interpolated. -/
def sanyaiSystemPreamble : String :=
  "You are Sanyai, an advanced AI assistant designed to be helpful, engaging, and visually structured.\n\n### GUIDELINES:\n1. **FORMATTING**: Use **GitHub Flavored Markdown** exclusively. Make your responses visually appealing.\n2. **STRUCTURE**: Use **Markdown Tables** for data/comparisons. Use **Bold** for key terms. Use **Headers** (#, ##) to separate sections.\n3. **NO HTML**: NEVER use HTML tags like <br>, <b>, <i>, <table>, etc. Use standard Markdown syntax instead.\n4. **ENGAGEMENT**: Use emojis 🚀✨ sparingly in headers to make them pop. Use `code blocks` for technical terms.\n5. **CLARITY**: Use bullet points and numbered lists for readability. Use > Blockquotes for summaries or important notes.\n6. **LENGTH CONSTRAINT**: "

/-- The system-prompt string `generateResponse` sends to the model: the fixed
preamble with the depth instruction interpolated at the end. -/
def generateSystemPrompt (depth : String) : String :=
  sanyaiSystemPreamble ++ genDepthInstruction depth

/-! ### Web search (`performWebSearch`) -/

/-- A `text_blocks` entry of the SerpApi response (only the fields the source
reads). -/
structure TextBlock where
  snippet : Option String
  title : Option String
  text : Option String
  link : Option String
  source_url : Option String
  source : Option String
deriving DecidableEq

/-- An `organic_results` entry of the SerpApi response. -/
structure OrganicResult where
  title : Option String
  snippet : Option String
  link : Option String
  favicon : Option String
deriving DecidableEq

/-- A `references` entry of the SerpApi response (Google AI mode). -/
structure Reference where
  title : Option String
  source : Option String
  link : Option String
  source_icon : Option String
deriving DecidableEq

/-- The parsed SerpApi JSON, restricted to the fields the source reads.
`error` is the truthiness of `data.error`; a `none` list field models an
absent key. -/
structure SearchData where
  error : Bool
  text_blocks : Option (List TextBlock)
  organic_results : Option (List OrganicResult)
  references : Option (List Reference)
deriving DecidableEq

/-- A source citation as assembled by `performWebSearch`. -/
structure Source where
  title : Option String
  link : Option String
  favicon : Option String
deriving DecidableEq

/-- The successful result of `performWebSearch`. -/
structure SearchResult where
  context : String
  sources : List Source
deriving DecidableEq

/-- The chunk extraction of `performWebSearch`: map `text_blocks` through
`b.snippet || b.title || b.text` and `.filter(Boolean)`; when that yields no
chunks and `organic_results` is present, use the organic snippets instead. -/
def extractChunks (data : SearchData) : List String :=
  let chunks :=
    match data.text_blocks with
    | some bs => jsFilterBoolean (bs.map fun b => jsOr (jsOr b.snippet b.title) b.text)
    | none => []
  if chunks.length = 0 then
    match data.organic_results with
    | some rs => jsFilterBoolean (rs.map fun r => r.snippet)
    | none => chunks
  else chunks

/-- Source strategies 1 and 2 of `performWebSearch`: the first five
`organic_results`, or, when that list is empty or absent, the first five
`references`. -/
def preMergeSources (data : SearchData) : List Source :=
  let sources : List Source :=
    match data.organic_results with
    | some rs => (rs.take 5).map fun r => { title := r.title, link := r.link, favicon := r.favicon }
    | none => []
  if sources.length = 0 then
    match data.references with
    | some rs =>
        (rs.take 5).map fun r =>
          { title := jsOr r.title (jsOr r.source (some "Source")), link := r.link,
            favicon := r.source_icon }
    | none => sources
  else sources

/-- Strategy 3's candidate list: text blocks turned into sources, keeping only
those with a truthy link. -/
def blockSources (bs : List TextBlock) : List Source :=
  (bs.map fun b =>
      Source.mk (jsOr b.title (jsOr b.source (some "Source"))) (jsOr b.link b.source_url) none).filter
    fun s => truthyStr s.link

/-- The merge loop of strategy 3: push each candidate whose link is not
already present, as long as fewer than five sources are collected. -/
def mergeSources : List Source → List Source → List Source
  | sources, [] => sources
  | sources, bs :: rest =>
    if (sources.find? fun s => s.link == bs.link) = none ∧ sources.length < 5 then
      mergeSources (sources ++ [bs]) rest
    else
      mergeSources sources rest

/-- The source extraction of `performWebSearch`: strategies 1 and 2, then the
text-block merge fallback when fewer than three sources were found. -/
def extractSources (data : SearchData) : List Source :=
  let sources := preMergeSources data
  if sources.length < 3 then
    match data.text_blocks with
    | some bs => mergeSources sources (blockSources bs)
    | none => sources
  else sources

/-- The possible outcomes of the SerpApi interaction: missing API key, a
network error (the `fetch` or `res.json()` threw), or parsed JSON. -/
inductive SearchOutcome where
  | noKey
  | netError
  | ok (data : SearchData)

/-- `performWebSearch`: `null` (modelled `none`) on a missing key, a network
error or a truthy `data.error`; otherwise the top 15 chunks joined with blank
lines and the extracted sources. -/
def performWebSearch (outcome : SearchOutcome) : Option SearchResult :=
  match outcome with
  | SearchOutcome.noKey => none
  | SearchOutcome.netError => none
  | SearchOutcome.ok data =>
    if data.error then none
    else
      some { context := String.intercalate "\n\n" ((extractChunks data).take 15)
             sources := extractSources data }

/-! ### Web-search flow (`handleWebSearchFlow`) -/

/-- Outcome of a (non-streaming) chat-completions call: `content` is
`choices[0]?.message?.content`, `usage` is `completion.usage`; `threw` models a
thrown error. -/
inductive ApiOutcome where
  | ok (content : Option String) (usage : Option (Nat × Nat))
  | threw

/-- The default context used when the search yields nothing
(`searchResult?.context || ...`). -/
def webDefaultContext : String :=
  "No web results found. Please answer based on your general knowledge."

/-- The prompt template `handleWebSearchFlow` builds for the synthesis
model. -/
def webPrompt (query context instruction : String) : String :=
  "\n    ### USER QUERY:\n    " ++ query ++
  "\n\n    ### WEB SEARCH CONTEXT:\n    " ++ context ++
  "\n\n    ### INSTRUCTIONS:\n    1. Answer the user's query comprehensively using the provided context.\n    2. Cite the information implicitly by synthesizing it.\n    3. " ++
  instruction ++ "\n    4. Format nicely with Markdown.\n    "

/-- One numbered markdown source line appended by `handleWebSearchFlow`:
`` `${i+1}. [${s.title}](${s.link})\n` ``. -/
def sourceLine (i : Nat) (s : Source) : String :=
  toString (i + 1) ++ ". [" ++ jsStr s.title ++ "](" ++ jsStr s.link ++ ")\n"

/-- The sources section appended to a web-search response when at least one
source exists. -/
def sourcesSection (sources : List Source) : String :=
  "\n\n---\n### 🌐 Sources\n" ++ String.join (sources.enum.map fun p => sourceLine p.1 p.2)

/-- The result of `handleWebSearchFlow`; the error path returns an empty usage
object, modelled as `none`. -/
structure FlowResult where
  response : String
  usage : Option (Nat × Nat)

/-- `handleWebSearchFlow`: run the search, build the context and prompt, call
the synthesis model (`kimi` maps the built prompt to an outcome), and append
the numbered sources section when sources exist; a thrown model error becomes
the fixed error string. -/
def handleWebSearchFlow (search : SearchOutcome) (kimi : String → ApiOutcome)
    (query depth : String) : FlowResult :=
  let searchResult := performWebSearch search
  let context := (jsOr (searchResult.map SearchResult.context) (some webDefaultContext)).getD webDefaultContext
  let sources := (searchResult.map SearchResult.sources).getD []
  let prompt := webPrompt query context (webDepthInstruction depth)
  match kimi prompt with
  | ApiOutcome.threw => { response := "Error generating web search response.", usage := none }
  | ApiOutcome.ok content u =>
    let response :=
      (jsOr content (some "Failed to generate response.")).getD "Failed to generate response."
    let response := if sources.length > 0 then response ++ sourcesSection sources else response
    { response := response, usage := some (u.getD (0, 0)) }

/-! ### Standard flow (`generateResponse`, LangGraph orchestrator) -/

/-- Outcome of the streaming chat-completions call in `generateResponse`: the
per-chunk delta contents (`none` when a chunk carries no content), or a thrown
error with its message. -/
inductive StreamOutcome where
  | ok (chunks : List (Option String))
  | threw (msg : String)

/-- `generateResponse`: missing HF key and thrown errors become user-visible
error strings; otherwise the truthy delta contents are concatenated, with an
apology when the result is empty.  `callApi` maps the system prompt and the
message history to the stream outcome. -/
def generateResponse (hfKey : Bool) (callApi : String → List (String × String) → StreamOutcome)
    (prompt : List (String × String)) (depth : String) : String :=
  if !hfKey then "Error: Hugging Face Access Token is missing. Please check your .env file."
  else
    match callApi (generateSystemPrompt depth) prompt with
    | StreamOutcome.threw msg =>
      "Error calling AI Model: " ++ msg ++ ". Please check your API key and connection."
    | StreamOutcome.ok chunks =>
      let out := String.join (jsFilterBoolean chunks)
      if out = "" then
        "I apologize, but I received an empty response from the AI model. Please try again."
      else out

/-- A LangChain message as used by the orchestrator: human or AI, the latter
optionally carrying usage metadata in `additional_kwargs`. -/
inductive LCMessage where
  | human (content : String)
  | ai (content : String) (usage : Option (Nat × Nat))
deriving DecidableEq

/-- The `agent` node `callModel`: format the accumulated messages back into
`(role, content)` pairs, call `generateResponse`, and return the new AI
message with input/output token usage attached. -/
def callModel (hfKey : Bool) (callApi : String → List (String × String) → StreamOutcome)
    (encode : String → Option (List Nat)) (messages : List LCMessage) (depth : String) :
    List LCMessage :=
  let formattedHistory := messages.map fun m =>
    match m with
    | LCMessage.human c => ("user", c)
    | LCMessage.ai c _ => ("assistant", c)
  let responseContent := generateResponse hfKey callApi formattedHistory depth
  let inputTokens := formattedHistory.foldl (fun acc rc => acc + countTokens encode rc.2) 0
  let outputTokens := countTokens encode responseContent
  [LCMessage.ai responseContent (some (inputTokens, outputTokens))]

/-- `runLangGraph`: convert the plain history to LangChain messages, invoke
the one-node graph (its `messages` channel concatenates, so the result is the
inputs followed by the agent's message), and read content and usage off the
last message. -/
def runLangGraph (hfKey : Bool) (callApi : String → List (String × String) → StreamOutcome)
    (encode : String → Option (List Nat)) (history : List (String × String))
    (depth : String) : String × (Nat × Nat) :=
  let inputs := history.map fun rc =>
    if rc.1 = "user" then LCMessage.human rc.2 else LCMessage.ai rc.2 none
  let result := inputs ++ callModel hfKey callApi encode inputs depth
  match result.getLast? with
  | some (LCMessage.ai c u) => (c, u.getD (0, 0))
  | some (LCMessage.human c) => (c, (0, 0))
  | none => ("", (0, 0))

/-! ### Database model and the `/chat`, `/chat/:id`, `/chats` handlers -/

/-- A row of the `messages` table (the columns the handlers read and write). -/
structure StoredMessage where
  chat_id : String
  role : String
  content : String
deriving DecidableEq

/-- The externally managed database: the `chats` table (ids in creation
order) and the `messages` table (rows in insertion order, which is
`created_at` order). -/
structure DbState where
  chats : List String
  messages : List StoredMessage
deriving DecidableEq

/-- Outcome of a Supabase call that returns a value. -/
inductive DbOutcome (α : Type) where
  | ok (a : α)
  | err
deriving DecidableEq

/-- The environment of one `/chat` request: whether the Supabase client is
configured, the outcomes of the individual database calls, `Date.now()`, and
the external-model oracles. -/
structure ChatEnv where
  supabaseConfigured : Bool
  createChat : DbOutcome String
  insertUserOk : Bool
  insertAssistantOk : Bool
  historyOk : Bool
  now : Nat
  hfKey : Bool
  callApi : String → List (String × String) → StreamOutcome
  encode : String → Option (List Nat)
  search : SearchOutcome
  kimi : String → ApiOutcome

/-- The body of a `POST /chat` request. -/
structure ChatRequest where
  chat_id : Option String
  message : String
  depth : Option String
  webSearch : Bool

/-- The JSON body returned by `POST /chat` on success. -/
structure ChatResponse where
  chat_id : String
  response : String
  usage : Option (Nat × Nat)

/-- Step 1 of the `/chat` handler: keep a truthy `chat_id`; otherwise create
a chat row (falling back to `'local-' + Date.now()` when the client is
unconfigured or the insert errors). -/
def handleChatSession (env : ChatEnv) (db : DbState) (chat_id : Option String) :
    String × DbState :=
  match jsTruthy chat_id with
  | some cid => (cid, db)
  | none =>
    if env.supabaseConfigured then
      match env.createChat with
      | DbOutcome.ok id => (id, { db with chats := db.chats ++ [id] })
      | DbOutcome.err => ("local-" ++ toString env.now, db)
    else ("local-" ++ toString env.now, db)

/-- A `messages.insert` call: appends the row when the client is configured
and the insert succeeds; the handler ignores the result either way. -/
def insertMessage (configured ok : Bool) (db : DbState) (m : StoredMessage) : DbState :=
  if configured && ok then { db with messages := db.messages ++ [m] } else db

/-- Step 3 of the `/chat` handler: load the chat's rows ordered by
`created_at`; an unconfigured client or a query error degrades to the single
current user message. -/
def loadConversation (env : ChatEnv) (db : DbState) (chat_id message : String) :
    List (String × String) :=
  if env.supabaseConfigured then
    if env.historyOk then
      (db.messages.filter fun m => m.chat_id == chat_id).map fun m => (m.role, m.content)
    else [("user", message)]
  else [("user", message)]

/-- The `POST /chat` handler, returning the HTTP result together with the
database state it leaves behind. -/
def chatHandler (env : ChatEnv) (db : DbState) (req : ChatRequest) :
    Except Nat ChatResponse × DbState :=
  if req.message = "" then (Except.error 400, db)
  else
    let depth := (jsOr req.depth (some "Short")).getD "Short"
    let session := handleChatSession env db req.chat_id
    let chat_id := session.1
    let db1 := session.2
    let db2 := insertMessage env.supabaseConfigured env.insertUserOk db1
      { chat_id := chat_id, role := "user", content := req.message }
    let conversation := loadConversation env db2 chat_id req.message
    let gen :=
      if req.webSearch then
        let r := handleWebSearchFlow env.search env.kimi req.message depth
        (r.response, r.usage)
      else
        let r := runLangGraph env.hfKey env.callApi env.encode conversation depth
        (r.1, some r.2)
    let db3 := insertMessage env.supabaseConfigured env.insertAssistantOk db2
      { chat_id := chat_id, role := "assistant", content := gen.1 }
    (Except.ok { chat_id := chat_id, response := gen.1, usage := gen.2 }, db3)

/-- The `GET /chat/:id` handler's `messages` payload: empty when the client is
unconfigured or the query fails, otherwise the chat's rows in `created_at`
order. -/
def getChatHandler (configured fetchOk : Bool) (db : DbState) (id : String) :
    List StoredMessage :=
  if !configured then []
  else if !fetchOk then []
  else db.messages.filter fun m => m.chat_id == id

/-- The `GET /chats` handler's `chats` payload: empty when the client is
unconfigured or the query fails, otherwise the twenty most recent chats. -/
def getChatsHandler (configured fetchOk : Bool) (db : DbState) : List String :=
  if !configured then []
  else if !fetchOk then []
  else db.chats.reverse.take 20

/-! ### Concrete fixtures used by the witness theorems -/

/-- A tokenizer oracle that always throws. -/
def sampleEncode : String → Option (List Nat) := fun _ => none

/-- A SerpApi response with one text block carrying a snippet and a link. -/
def sampleSearchData : SearchData :=
  { error := false
    text_blocks := some [{ snippet := some "a", title := none, text := none,
                           link := some "l1", source_url := none, source := none }]
    organic_results := none
    references := none }

/-- The search result `performWebSearch` computes from `sampleSearchData`. -/
def sampleSearchResult : SearchResult :=
  { context := "a", sources := [{ title := some "Source", link := some "l1", favicon := none }] }

/-- An environment with no database, a throwing stream call and a throwing
synthesis call. -/
def sampleEnv : ChatEnv :=
  { supabaseConfigured := false
    createChat := DbOutcome.err
    insertUserOk := true
    insertAssistantOk := true
    historyOk := true
    now := 1700000000000
    hfKey := true
    callApi := fun _ _ => StreamOutcome.threw "boom"
    encode := sampleEncode
    search := SearchOutcome.noKey
    kimi := fun _ => ApiOutcome.threw }

/-- An environment with a configured database and a successful web search and
synthesis call. -/
def sampleEnvWeb : ChatEnv :=
  { supabaseConfigured := true
    createChat := DbOutcome.ok "c9"
    insertUserOk := true
    insertAssistantOk := true
    historyOk := true
    now := 1700000000000
    hfKey := true
    callApi := fun _ _ => StreamOutcome.ok [some "ok"]
    encode := sampleEncode
    search := SearchOutcome.ok sampleSearchData
    kimi := fun _ => ApiOutcome.ok (some "answer") none }

/-- An empty database. -/
def sampleDb : DbState := { chats := [], messages := [] }

/-- A request carrying an existing `chat_id`. -/
def sampleReqExisting : ChatRequest :=
  { chat_id := some "c1", message := "hello", depth := none, webSearch := false }

/-- A request without a `chat_id`. -/
def sampleReqNew : ChatRequest :=
  { chat_id := none, message := "hello", depth := none, webSearch := false }

/-- A request with the web-search toggle on. -/
def sampleReqWeb : ChatRequest :=
  { chat_id := none, message := "hello", depth := some "Short", webSearch := true }

/-! ### Helper lemmas -/

/-- `insertMessage` never touches the `chats` table. -/
theorem insertMessage_chats (c o : Bool) (db : DbState) (m : StoredMessage) :
    (insertMessage c o db m).chats = db.chats := by
  unfold insertMessage
  split <;> rfl

/-- `insertMessage` only ever appends to the `messages` table. -/
theorem insertMessage_messages (c o : Bool) (db : DbState) (m : StoredMessage) :
    (insertMessage c o db m).messages = db.messages ++ (if c && o then [m] else []) := by
  unfold insertMessage
  split <;> simp_all

/-! ### C8 -/

/-- C8: for every text, `countTokens` returns the length of the tokenizer's
encoding of the text, and whenever the tokenizer throws it returns the
character-count fallback `ceil(length / 4)` (the least `k` with
`length ≤ 4 * k`); it is total and valued in `Nat`, hence non-negative. -/
theorem countTokens_spec (encode : String → Option (List Nat)) (text : String) :
    (∀ ts, encode text = some ts → countTokens encode text = ts.length) ∧
    (encode text = none →
      countTokens encode text = (text.length + 3) / 4 ∧
      text.length ≤ 4 * ((text.length + 3) / 4) ∧
      ∀ k, text.length ≤ 4 * k → (text.length + 3) / 4 ≤ k) := by
  constructor
  · intro ts h
    simp [countTokens, h]
  · intro h
    refine ⟨by simp [countTokens, h], by omega, fun k hk => by omega⟩

/-- C8 witness: with a throwing tokenizer, `countTokens` on `"abcde"` is the
character-count fallback. -/
theorem countTokens_spec_witness :
    countTokens (fun _ => none) "abcde" = ("abcde".length + 3) / 4 :=
  ((countTokens_spec (fun _ => none) "abcde").2 rfl).1

/-! ### C9 -/

/-- C9: any depth value outside the four labels (including any arbitrary
string) selects the `'Short'` instruction in both prompt-assembly paths, and
produces a system prompt identical to depth `'Short'`. -/
theorem depth_unrecognized_falls_back (d : String)
    (h1 : d ≠ "Concise") (h2 : d ≠ "Short") (h3 : d ≠ "Medium") (h4 : d ≠ "Large") :
    genDepthInstruction d = shortInstr ∧
    genDepthInstruction d = genDepthInstruction "Short" ∧
    webDepthInstruction d = shortInstr ∧
    webDepthInstruction d = webDepthInstruction "Short" ∧
    generateSystemPrompt d = generateSystemPrompt "Short" := by
  have hgen : depthInstructionsGen d = none := by
    simp [depthInstructionsGen, h1, h2, h3, h4]
  have hweb : depthInstructionsWeb d = none := by
    simp [depthInstructionsWeb, h1, h2, h3, h4]
  have e1 : genDepthInstruction d = shortInstr := by
    unfold genDepthInstruction
    rw [hgen]
    decide
  have e2 : genDepthInstruction "Short" = shortInstr := by decide
  have e3 : webDepthInstruction d = shortInstr := by
    unfold webDepthInstruction
    rw [hweb]
    decide
  have e4 : webDepthInstruction "Short" = shortInstr := by decide
  exact ⟨e1, e1.trans e2.symm, e3, e3.trans e4.symm,
    by simp [generateSystemPrompt, e1.trans e2.symm]⟩

/-- C9 witness: the unrecognized depth `"Gigantic"` behaves like `'Short'`. -/
theorem depth_unrecognized_falls_back_witness :
    genDepthInstruction "Gigantic" = shortInstr ∧
    genDepthInstruction "Gigantic" = genDepthInstruction "Short" ∧
    webDepthInstruction "Gigantic" = shortInstr ∧
    webDepthInstruction "Gigantic" = webDepthInstruction "Short" ∧
    generateSystemPrompt "Gigantic" = generateSystemPrompt "Short" :=
  depth_unrecognized_falls_back "Gigantic" (by decide) (by decide) (by decide) (by decide)

/-! ### C5 -/

/-- C5 counterexample: the `max_tokens` passed to the model is the literal
`2048` for every depth in both paths, so `'Concise'` and `'Large'` share the
same token ceiling even though their instruction strings differ — the depth
lookup does not select a token ceiling. -/
theorem depth_token_ceiling_constant :
    generateMaxTokens "Concise" = generateMaxTokens "Large" ∧
    webSearchMaxTokens "Concise" = webSearchMaxTokens "Large" ∧
    genDepthInstruction "Concise" ≠ genDepthInstruction "Large" := by
  refine ⟨rfl, rfl, by decide⟩

/-- C5 (amended): each of the four depth labels selects its fixed instruction
string, inserted at the end of the system prompt, in both prompt-assembly
paths; the maximum number of generated tokens is the constant `2048` in both
paths, independent of depth. -/
theorem depth_lookup_instruction_only :
    (genDepthInstruction "Concise" = conciseInstr ∧ genDepthInstruction "Short" = shortInstr ∧
     genDepthInstruction "Medium" = mediumInstr ∧ genDepthInstruction "Large" = largeInstr) ∧
    (webDepthInstruction "Concise" = conciseInstr ∧ webDepthInstruction "Short" = shortInstr ∧
     webDepthInstruction "Medium" = mediumInstr ∧ webDepthInstruction "Large" = largeInstr) ∧
    (∀ d, generateSystemPrompt d = sanyaiSystemPreamble ++ genDepthInstruction d) ∧
    (∀ d, generateMaxTokens d = 2048) ∧
    (∀ d, webSearchMaxTokens d = 2048) :=
  ⟨⟨by decide, by decide, by decide, by decide⟩,
   ⟨by decide, by decide, by decide, by decide⟩,
   fun _ => rfl, fun _ => rfl, fun _ => rfl⟩

/-! ### C1 -/

/-- C1: when the optimization model's raw output defeats all three parse
attempts (direct parse, fence stripping, regex extraction), the smart-prompt
endpoint succeeds and returns `optimizedPrompt` equal to the original prompt,
unchanged. -/
theorem smartPrompt_parse_fallback (parse : String → Option SPResult)
    (encode : String → Option (List Nat)) (modelOutput : Option String) (prompt : String)
    (hp : prompt ≠ "")
    (h1 : parse ((jsOr modelOutput (some "\x7b\x7d")).getD "\x7b\x7d") = none)
    (h2 : parse (stripFences ((jsOr modelOutput (some "\x7b\x7d")).getD "\x7b\x7d")) = none)
    (h3 : ∀ str, matchJsonObject ((jsOr modelOutput (some "\x7b\x7d")).getD "\x7b\x7d") = some str →
      parse str = none) :
    ∃ resp, smartPromptHandler parse encode modelOutput prompt = Except.ok resp ∧
      resp.optimizedPrompt = prompt := by
  have hrp : robustParse parse ((jsOr modelOutput (some "\x7b\x7d")).getD "\x7b\x7d") prompt =
      parseFallback prompt := by
    unfold robustParse
    rw [h1, h2]
    cases hm : matchJsonObject ((jsOr modelOutput (some "\x7b\x7d")).getD "\x7b\x7d") with
    | none => rfl
    | some str => simp [h3 str hm]
  simp only [smartPromptHandler, if_neg hp, hrp]
  exact ⟨_, rfl, by simp [parseFallback, jsOr, jsTruthy, hp]⟩

/-- C1 witness: a model output with no parseable JSON anywhere yields the
original prompt back. -/
theorem smartPrompt_parse_fallback_witness :
    ∃ resp, smartPromptHandler (fun _ => none) sampleEncode (some "not json") "hi" =
        Except.ok resp ∧ resp.optimizedPrompt = "hi" :=
  smartPrompt_parse_fallback (fun _ => none) sampleEncode (some "not json") "hi"
    (by decide) rfl rfl
    (fun str h => by
      rw [show matchJsonObject ((jsOr (some "not json") (some "\x7b\x7d")).getD "\x7b\x7d") =
        none from by decide] at h)

/-! ### C10 -/

/-- The strategy-3 merge loop never grows the source list beyond five
entries. -/
theorem mergeSources_length_le (bss base : List Source) (h : base.length ≤ 5) :
    (mergeSources base bss).length ≤ 5 := by
  induction bss generalizing base with
  | nil => simpa [mergeSources] using h
  | cons bs rest ih =>
    simp only [mergeSources]
    split
    · rename_i hc
      refine ih (base ++ [bs]) ?_
      have := hc.2
      simp only [List.length_append, List.length_singleton]
      omega
    · exact ih base h

/-- The strategy-3 merge loop only appends sources, and every appended source
carries a link that is distinct from all links already present and from the
links of the other appended sources. -/
theorem mergeSources_adds_fresh (bss base : List Source) :
    ∃ t, mergeSources base bss = base ++ t ∧
      (t.map Source.link).Nodup ∧
      ∀ l ∈ t.map Source.link, l ∉ base.map Source.link := by
  induction bss generalizing base with
  | nil => exact ⟨[], by simp [mergeSources], List.nodup_nil, by simp⟩
  | cons bs rest ih =>
    simp only [mergeSources]
    split
    · rename_i hc
      obtain ⟨t, ht, hnd, hfresh⟩ := ih (base ++ [bs])
      have hbs_not_base : bs.link ∉ base.map Source.link := by
        intro hmem
        obtain ⟨s, hs, hlink⟩ := List.mem_map.mp hmem
        have := List.find?_eq_none.mp hc.1 s hs
        simp [hlink] at this
      refine ⟨bs :: t, by simpa [List.append_assoc] using ht, ?_, ?_⟩
      · rw [List.map_cons]
        refine List.nodup_cons.mpr ⟨?_, hnd⟩
        intro hmem
        exact hfresh _ hmem (by simp)
      · intro l hl
        rw [List.map_cons] at hl
        rcases List.mem_cons.mp hl with h1 | h1
        · subst h1
          exact hbs_not_base
        · intro hmem
          refine hfresh l h1 ?_
          simp only [List.map_append, List.mem_append]
          exact Or.inl hmem
    · obtain ⟨t, ht, hnd, hfresh⟩ := ih base
      exact ⟨t, ht, hnd, hfresh⟩

/-- Strategies 1 and 2 produce at most five sources. -/
theorem preMergeSources_length_le (data : SearchData) :
    (preMergeSources data).length ≤ 5 := by
  simp only [preMergeSources]
  cases h1 : data.organic_results with
  | some rs =>
    simp only
    split
    · cases h2 : data.references with
      | some rs2 => simp [List.length_take]
      | none => simp
    · simp [List.length_take]
  | none =>
    simp only
    split
    · cases h2 : data.references with
      | some rs2 => simp [List.length_take]
      | none => simp
    · simp

/-- C10: every non-null `performWebSearch` result has a context built from at
most fifteen chunks and at most five sources, and the text-block merge
fallback appends only sources whose links are fresh (pairwise distinct and
absent from the pre-merge list). -/
theorem performWebSearch_invariants (data : SearchData) (r : SearchResult)
    (h : performWebSearch (SearchOutcome.ok data) = some r) :
    r.sources.length ≤ 5 ∧
    (∃ chunks : List String, chunks.length ≤ 15 ∧
      r.context = String.intercalate "\n\n" chunks) ∧
    (∃ t, r.sources = preMergeSources data ++ t ∧
      (t.map Source.link).Nodup ∧
      ∀ l ∈ t.map Source.link, l ∉ (preMergeSources data).map Source.link) := by
  simp only [performWebSearch] at h
  cases he : data.error with
  | true =>
    rw [he] at h
    simp at h
  | false =>
    rw [he] at h
    simp only [Bool.false_eq_true, if_false, Option.some.injEq] at h
    subst h
    refine ⟨?_, ⟨(extractChunks data).take 15, by simp [List.length_take], rfl⟩, ?_⟩
    · show (extractSources data).length ≤ 5
      simp only [extractSources]
      split
      · split
        · exact mergeSources_length_le _ _ (preMergeSources_length_le data)
        · exact preMergeSources_length_le data
      · exact preMergeSources_length_le data
    · show ∃ t, extractSources data = preMergeSources data ++ t ∧ _
      simp only [extractSources]
      split
      · split
        · exact mergeSources_adds_fresh _ _
        · exact ⟨[], by simp, List.nodup_nil, by simp⟩
      · exact ⟨[], by simp, List.nodup_nil, by simp⟩

/-- C10 witness: the invariants instantiated at a concrete SerpApi response
with one text block. -/
theorem performWebSearch_invariants_witness :
    sampleSearchResult.sources.length ≤ 5 ∧
    (∃ chunks : List String, chunks.length ≤ 15 ∧
      sampleSearchResult.context = String.intercalate "\n\n" chunks) ∧
    (∃ t, sampleSearchResult.sources = preMergeSources sampleSearchData ++ t ∧
      (t.map Source.link).Nodup ∧
      ∀ l ∈ t.map Source.link, l ∉ (preMergeSources sampleSearchData).map Source.link) :=
  performWebSearch_invariants sampleSearchData sampleSearchResult (by decide)

/-! ### C2 -/

/-- C2: with `webSearch` true the chat handler routes to
`handleWebSearchFlow`, and when the search yields at least one source the
returned response is the synthesis answer with the numbered-markdown sources
section appended. -/
theorem chat_webSearch_appends_sources (env : ChatEnv) (db : DbState) (req : ChatRequest)
    (hmsg : req.message ≠ "") (hws : req.webSearch = true)
    (content : Option String) (u : Option (Nat × Nat))
    (hkimi : ∀ p, env.kimi p = ApiOutcome.ok content u)
    (sr : SearchResult) (hsr : performWebSearch env.search = some sr)
    (hs : sr.sources ≠ []) :
    ∃ resp db', chatHandler env db req = (Except.ok resp, db') ∧
      resp.response =
        (handleWebSearchFlow env.search env.kimi req.message
          ((jsOr req.depth (some "Short")).getD "Short")).response ∧
      resp.response =
        ((jsOr content (some "Failed to generate response.")).getD
            "Failed to generate response.")
          ++ sourcesSection sr.sources := by
  have hlen : sr.sources.length > 0 := List.length_pos.mpr hs
  have hflow : ∀ depth, (handleWebSearchFlow env.search env.kimi req.message depth).response =
      ((jsOr content (some "Failed to generate response.")).getD
          "Failed to generate response.")
        ++ sourcesSection sr.sources := by
    intro depth
    simp only [handleWebSearchFlow, hsr, hkimi, Option.map_some', Option.getD_some]
    rw [if_pos hlen]
  simp only [chatHandler, if_neg hmsg, hws, if_true]
  exact ⟨_, _, rfl, rfl, hflow _⟩

/-- C2 witness: a concrete web-search request whose response carries the
appended sources section. -/
theorem chat_webSearch_appends_sources_witness :
    ∃ resp db', chatHandler sampleEnvWeb sampleDb sampleReqWeb = (Except.ok resp, db') ∧
      resp.response =
        (handleWebSearchFlow sampleEnvWeb.search sampleEnvWeb.kimi sampleReqWeb.message
          ((jsOr sampleReqWeb.depth (some "Short")).getD "Short")).response ∧
      resp.response =
        ((jsOr (some "answer") (some "Failed to generate response.")).getD
            "Failed to generate response.")
          ++ sourcesSection sampleSearchResult.sources :=
  chat_webSearch_appends_sources sampleEnvWeb sampleDb sampleReqWeb (by decide) rfl
    (some "answer") none (fun _ => rfl) sampleSearchResult (by decide) (by decide)

/-! ### C3 -/

/-- C3: a `/chat` request without a (truthy) `chat_id` allocates a fresh
identifier — the database-created chat id, or the `'local-' + Date.now()`
fallback when the client is unconfigured or the insert errors — and returns it
in the response's `chat_id` field. -/
theorem chat_new_id (env : ChatEnv) (db : DbState) (req : ChatRequest)
    (hmsg : req.message ≠ "") (hcid : jsTruthy req.chat_id = none) :
    ∃ resp db', chatHandler env db req = (Except.ok resp, db') ∧
      ((env.supabaseConfigured = true ∧ ∃ id, env.createChat = DbOutcome.ok id ∧
          resp.chat_id = id ∧ db'.chats = db.chats ++ [id]) ∨
       (resp.chat_id = "local-" ++ toString env.now ∧
         (env.supabaseConfigured = false ∨ env.createChat = DbOutcome.err))) := by
  rcases Bool.eq_false_or_eq_true env.supabaseConfigured with hconf | hconf
  · have hsplit : (∃ id, env.createChat = DbOutcome.ok id) ∨ env.createChat = DbOutcome.err := by
      cases env.createChat with
      | ok id => exact Or.inl ⟨id, rfl⟩
      | err => exact Or.inr rfl
    rcases hsplit with ⟨id, hcc⟩ | hcc
    · have hs : handleChatSession env db req.chat_id =
          (id, { db with chats := db.chats ++ [id] }) := by
        simp [handleChatSession, hcid, hconf, hcc]
      simp only [chatHandler, if_neg hmsg, hs]
      refine ⟨_, _, rfl, Or.inl ⟨hconf, id, hcc, rfl, ?_⟩⟩
      rw [insertMessage_chats, insertMessage_chats]
    · have hs : handleChatSession env db req.chat_id = ("local-" ++ toString env.now, db) := by
        simp [handleChatSession, hcid, hconf, hcc]
      simp only [chatHandler, if_neg hmsg, hs]
      exact ⟨_, _, rfl, Or.inr ⟨rfl, Or.inr hcc⟩⟩
  · have hs : handleChatSession env db req.chat_id = ("local-" ++ toString env.now, db) := by
      simp [handleChatSession, hcid, hconf]
    simp only [chatHandler, if_neg hmsg, hs]
    exact ⟨_, _, rfl, Or.inr ⟨rfl, Or.inl hconf⟩⟩

/-- C3 witness: with an unconfigured database client, a request without
`chat_id` gets the local fallback identifier back. -/
theorem chat_new_id_witness :
    ∃ resp db', chatHandler sampleEnv sampleDb sampleReqNew = (Except.ok resp, db') ∧
      ((sampleEnv.supabaseConfigured = true ∧ ∃ id, sampleEnv.createChat = DbOutcome.ok id ∧
          resp.chat_id = id ∧ db'.chats = sampleDb.chats ++ [id]) ∨
       (resp.chat_id = "local-" ++ toString sampleEnv.now ∧
         (sampleEnv.supabaseConfigured = false ∨ sampleEnv.createChat = DbOutcome.err))) :=
  chat_new_id sampleEnv sampleDb sampleReqNew (by decide) (by decide)

/-! ### C4 -/

/-- C4: a `/chat` request carrying an existing (truthy) `chat_id` only appends
to that chat's history: the final `messages` table is the old table followed by
at most two new rows (the user message and the assistant response, both for
that chat), no chat row is created, and no stored row is modified or
deleted. -/
theorem chat_append_only (env : ChatEnv) (db : DbState) (req : ChatRequest) (cid : String)
    (hmsg : req.message ≠ "") (hcid : jsTruthy req.chat_id = some cid) :
    ∃ resp db', chatHandler env db req = (Except.ok resp, db') ∧
      db.messages <+: db'.messages ∧
      db'.chats = db.chats ∧
      db'.messages.length ≤ db.messages.length + 2 ∧
      ∀ m ∈ db'.messages.drop db.messages.length, m.chat_id = cid ∧
        ((m.role = "user" ∧ m.content = req.message) ∨ m.role = "assistant") := by
  have hs : handleChatSession env db req.chat_id = (cid, db) := by
    simp [handleChatSession, hcid]
  simp only [chatHandler, if_neg hmsg, hs]
  refine ⟨_, _, rfl, ?_, ?_, ?_, ?_⟩
  · exact ⟨_, by rw [insertMessage_messages, insertMessage_messages, List.append_assoc]⟩
  · rw [insertMessage_chats, insertMessage_chats]
  · rw [insertMessage_messages, insertMessage_messages]
    simp only [List.length_append]
    split_ifs <;> simp
  · intro m hm
    rw [insertMessage_messages, insertMessage_messages, List.append_assoc,
      List.drop_left] at hm
    rcases List.mem_append.mp hm with h | h
    · by_cases hc : (env.supabaseConfigured && env.insertUserOk) = true
      · rw [if_pos hc] at h
        simp only [List.mem_singleton] at h
        subst h
        exact ⟨rfl, Or.inl ⟨rfl, rfl⟩⟩
      · rw [if_neg hc] at h
        simp at h
    · by_cases hc : (env.supabaseConfigured && env.insertAssistantOk) = true
      · rw [if_pos hc] at h
        simp only [List.mem_singleton] at h
        subst h
        exact ⟨rfl, Or.inr rfl⟩
      · rw [if_neg hc] at h
        simp at h

/-- C4 witness: with a configured database and an existing chat id, the
handler appends exactly the user and assistant rows for that chat. -/
theorem chat_append_only_witness :
    ∃ resp db', chatHandler sampleEnvWeb sampleDb sampleReqExisting =
        (Except.ok resp, db') ∧
      sampleDb.messages <+: db'.messages ∧
      db'.chats = sampleDb.chats ∧
      db'.messages.length ≤ sampleDb.messages.length + 2 ∧
      ∀ m ∈ db'.messages.drop sampleDb.messages.length, m.chat_id = "c1" ∧
        ((m.role = "user" ∧ m.content = sampleReqExisting.message) ∨ m.role = "assistant") :=
  chat_append_only sampleEnvWeb sampleDb sampleReqExisting "c1" (by decide) (by decide)

/-! ### C6 -/

/-- C6: errors thrown by the external model calls are caught inside the call:
a thrown synthesis call in the web-search branch yields an HTTP-success
response whose `response` field is the fixed error string, and a thrown stream
call in the standard branch yields an HTTP-success response whose `response`
field embeds the error message; neither propagates as an HTTP error. -/
theorem chat_model_errors_embedded (env : ChatEnv) (db : DbState) (req : ChatRequest)
    (hmsg : req.message ≠ "") :
    (req.webSearch = true → (∀ p, env.kimi p = ApiOutcome.threw) →
      ∃ resp db', chatHandler env db req = (Except.ok resp, db') ∧
        resp.response = "Error generating web search response.") ∧
    (req.webSearch = false → env.hfKey = true →
      ∀ msg, (∀ sys msgs, env.callApi sys msgs = StreamOutcome.threw msg) →
      ∃ resp db', chatHandler env db req = (Except.ok resp, db') ∧
        resp.response =
          "Error calling AI Model: " ++ msg ++ ". Please check your API key and connection.") := by
  constructor
  · intro hws hkimi
    simp only [chatHandler, if_neg hmsg, hws, if_true]
    refine ⟨_, _, rfl, ?_⟩
    show (handleWebSearchFlow env.search env.kimi req.message _).response = _
    simp only [handleWebSearchFlow, hkimi]
  · intro hws hhf msg hca
    simp only [chatHandler, if_neg hmsg, hws, Bool.false_eq_true, if_false]
    refine ⟨_, _, rfl, ?_⟩
    show (runLangGraph env.hfKey env.callApi env.encode _ _).1 = _
    simp [runLangGraph, callModel, generateResponse, hhf, hca, List.getLast?_concat]

/-- C6 witness: a throwing synthesis call in a concrete web-search request is
returned as a 200 response embedding the error string. -/
theorem chat_model_errors_embedded_witness :
    ∃ resp db', chatHandler sampleEnv sampleDb sampleReqWeb = (Except.ok resp, db') ∧
      resp.response = "Error generating web search response." :=
  (chat_model_errors_embedded sampleEnv sampleDb sampleReqWeb (by decide)).1 rfl (fun _ => rfl)

/-! ### C7 -/

/-- C7: database failure or an unconfigured client degrades instead of
failing: chat creation falls back to the `'local-' + Date.now()` identifier
while the request still succeeds, the `/chat` context load degrades to the
single current user message, and `GET /chat/:id` and `GET /chats` return empty
lists. -/
theorem db_failure_degrades (env : ChatEnv) (db : DbState) (req : ChatRequest)
    (hmsg : req.message ≠ "") :
    ((env.supabaseConfigured = false ∨ env.createChat = DbOutcome.err) →
      jsTruthy req.chat_id = none →
      ∃ resp db', chatHandler env db req = (Except.ok resp, db') ∧
        resp.chat_id = "local-" ++ toString env.now) ∧
    (∀ cid, (env.supabaseConfigured = false ∨ env.historyOk = false) →
      loadConversation env db cid req.message = [("user", req.message)]) ∧
    (∀ conf fetchOk : Bool, ∀ id, (conf = false ∨ fetchOk = false) →
      getChatHandler conf fetchOk db id = []) ∧
    (∀ conf fetchOk : Bool, (conf = false ∨ fetchOk = false) →
      getChatsHandler conf fetchOk db = []) := by
  refine ⟨?_, ?_, ?_, ?_⟩
  · intro hdb hcid
    have hs : handleChatSession env db req.chat_id = ("local-" ++ toString env.now, db) := by
      rcases hdb with h | h
      · simp [handleChatSession, hcid, h]
      · rcases Bool.eq_false_or_eq_true env.supabaseConfigured with hc | hc <;>
          simp [handleChatSession, hcid, h, hc]
    simp only [chatHandler, if_neg hmsg, hs]
    exact ⟨_, _, rfl, rfl⟩
  · intro cid hdb
    rcases hdb with h | h
    · simp [loadConversation, h]
    · rcases Bool.eq_false_or_eq_true env.supabaseConfigured with hc | hc <;>
        simp [loadConversation, h, hc]
  · intro conf fetchOk id hdb
    rcases hdb with h | h <;> simp [getChatHandler, h]
  · intro conf fetchOk hdb
    rcases hdb with h | h <;> simp [getChatsHandler, h]

/-- C7 witness: with an unconfigured client a concrete request still succeeds
and carries the local fallback identifier. -/
theorem db_failure_degrades_witness :
    ∃ resp db', chatHandler sampleEnv sampleDb sampleReqNew = (Except.ok resp, db') ∧
      resp.chat_id = "local-" ++ toString sampleEnv.now :=
  (db_failure_degrades sampleEnv sampleDb sampleReqNew (by decide)).1 (Or.inl rfl) (by decide)

end Sanyai
